import Mathlib

/-!
Shallow embedding of the voice-broadcast backend (Node.js) — the Broadcast and
BroadcastCall mongoose models, the OptOut model, the broadcast queue service
(dispatch engine), the Twilio webhook handlers, the broadcast service and the
template validator — together with theorems settling the frozen claims about
the dispatch engine, the retry policy, the stats aggregation, the opt-out
filter and the webhook reconciliation logic.

Timestamps are modelled as natural numbers (milliseconds since epoch).
Mongoose documents are modelled as Lean structures; a collection is a list of
such structures; database queries become list filters in natural (store)
order, which is the order the source relies on (none of the modelled queries
carries a sort clause).
-/

namespace VoiceBroadcast

/-- Call status enum of the BroadcastCall schema (models/Broadcast.js,
second schema). -/
inductive CallStatus
  | queued
  | calling
  | ringing
  | in_progress
  | answered
  | completed
  | failed
  | busy
  | no_answer
  | cancelled
  | opted_out
  deriving DecidableEq, Repr

/-- Campaign status enum of the Broadcast schema. -/
inductive BroadcastStatus
  | draft
  | queued
  | in_progress
  | completed
  | cancelled
  deriving DecidableEq, Repr

/-- DND status enum of the BroadcastCall schema. -/
inductive DndStatus
  | allowed
  | blocked
  | unchecked
  deriving DecidableEq, Repr

/-- Twilio error subdocument stored on a failed call. -/
structure TwilioError where
  code : Nat
  message : String
  deriving DecidableEq, Repr

/-- Call metadata mixed subdocument: the webhook handler stores answeredBy and
error fields into it by object spread. -/
structure CallMetadata where
  answeredBy : Option String
  errorCode : Option String
  errorMessage : Option String
  deriving DecidableEq, Repr

/-- One BroadcastCall document (models/Broadcast.js, broadcastCallSchema).
Fields irrelevant to every claim (personalizedMessage, answerTime,
audioPlayed…) are omitted; identity is a numeric id standing for the mongo
ObjectId. -/
structure BroadcastCall where
  id : Nat
  broadcast : Nat
  phone : String
  callSid : Option String
  status : CallStatus
  attempts : Nat
  retryAfter : Option Nat
  duration : Option Nat
  startTime : Option Nat
  endTime : Option Nat
  twilioError : Option TwilioError
  dndStatus : DndStatus
  optedOut : Bool
  metadata : Option CallMetadata
  deriving DecidableEq, Repr

/-- Compliance subdocument of the Broadcast config. -/
structure ComplianceConfig where
  disclaimerText : String
  optOutEnabled : Bool
  dndRespect : Bool
  deriving DecidableEq, Repr

/-- Broadcast config subdocument.  The mongoose schema defaults are
maxConcurrent 50, maxRetries 2, retryDelay 300000 (5 minutes). -/
structure BroadcastConfig where
  maxConcurrent : Nat
  maxRetries : Nat
  retryDelay : Nat
  compliance : ComplianceConfig
  deriving DecidableEq, Repr

/-- Broadcast stats subdocument; every bucket defaults to 0. -/
structure BroadcastStats where
  total : Nat
  queued : Nat
  calling : Nat
  answered : Nat
  completed : Nat
  failed : Nat
  opted_out : Nat
  deriving DecidableEq, Repr

/-- One Broadcast (campaign) document. -/
structure Broadcast where
  id : Nat
  status : BroadcastStatus
  stats : BroadcastStats
  config : BroadcastConfig
  startedAt : Option Nat
  completedAt : Option Nat
  deriving DecidableEq, Repr

/-- JavaScript truthiness choice v or d on a number: null, undefined and 0
are falsy, so both a missing field and an explicit 0 fall back to d. -/
def jsOrNum : Option Nat → Nat → Nat
  | some v, d => if v = 0 then d else v
  | none, d => d

/-- JavaScript v or d on a number known to be present. -/
def jsOr (v d : Nat) : Nat :=
  if v = 0 then d else v

/-- markCalling(callSid): unconditionally stores the SID, sets status to
calling and startTime, and increments attempts (models/Broadcast.js). -/
def markCalling (now : Nat) (sid : String) (c : BroadcastCall) : BroadcastCall :=
  { c with callSid := some sid, status := CallStatus.calling,
           startTime := some now, attempts := c.attempts + 1 }

/-- markCompleted(duration) (models/Broadcast.js). -/
def markCompleted (now duration : Nat) (c : BroadcastCall) : BroadcastCall :=
  { c with status := CallStatus.completed, endTime := some now,
           duration := some duration }

/-- markFailed(errorCode, errorMsg, shouldRetry) (models/Broadcast.js).
Sets terminal failed state, then re-queues with
retryAfter = now + (broadcast config retryDelay or 300000) when
shouldRetry holds and attempts < 2 — the threshold 2 is hardcoded in the
source and does not consult config.maxRetries.  The retryDelay argument is
the result of the broadcast lookup, Option-valued because the source guards
it with optional chaining. -/
def markFailed (now : Nat) (retryDelay : Option Nat) (errorCode : Nat)
    (errorMsg : String) (shouldRetry : Bool) (c : BroadcastCall) : BroadcastCall :=
  let c1 := { c with status := CallStatus.failed, endTime := some now,
                     twilioError := some { code := errorCode, message := errorMsg } }
  if shouldRetry ∧ c1.attempts < 2 then
    { c1 with retryAfter := some (now + jsOrNum retryDelay 300000),
              status := CallStatus.queued }
  else
    c1

/-- markOptedOut() (models/Broadcast.js). -/
def markOptedOut (now : Nat) (c : BroadcastCall) : BroadcastCall :=
  { c with status := CallStatus.opted_out, optedOut := true, endTime := some now }

/-- MongoDB comparison on the retryAfter field: a $lte-on-Date query matches
only documents where the field is present (a missing or null retryAfter does
not satisfy the comparison). -/
def retryAfterLE : Option Nat → Nat → Bool
  | some t, now => decide (t ≤ now)
  | none, _ => false

/-- Filter of the getRetryableCalls static query: broadcast id, status queued,
attempts strictly below the hardcoded 2, retryAfter present and elapsed. -/
def matchesRetryable (now broadcastId : Nat) (c : BroadcastCall) : Bool :=
  c.broadcast == broadcastId && c.status == CallStatus.queued &&
    decide (c.attempts < 2) && retryAfterLE c.retryAfter now

/-- getRetryableCalls (static, models/Broadcast.js): the query above with a
hardcoded limit(50) and no sort clause, so store order is kept. -/
def getRetryableCalls (now broadcastId : Nat) (store : List BroadcastCall) :
    List BroadcastCall :=
  (store.filter (matchesRetryable now broadcastId)).take 50

/-- Filter of the fresh-call query in the queue service: status queued and
attempts equal to 0 (no retryAfter condition). -/
def matchesFresh (broadcastId : Nat) (c : BroadcastCall) : Bool :=
  c.broadcast == broadcastId && c.status == CallStatus.queued && c.attempts == 0

/-- getNextCalls (broadcastQueueService.js): fresh calls limited to the slot
count; when they do not fill the batch, retryable calls are appended up to
the deficit. -/
def _getNextCalls (now broadcastId limit : Nat) (store : List BroadcastCall) :
    List BroadcastCall :=
  let freshCalls := (store.filter (matchesFresh broadcastId)).take limit
  if limit ≤ freshCalls.length then
    freshCalls
  else
    freshCalls ++ (getRetryableCalls now broadcastId store).take (limit - freshCalls.length)

/-- Source enum of the OptOut schema. -/
inductive OptOutSource
  | broadcast_keypress
  | manual
  | dnd_registry
  | api
  deriving DecidableEq, Repr

/-- One OptOut document (models/OptOut.js).  The schema attaches a TTL index
on expiresAt, so Mongo purges expired records in a lagging background sweep;
between expiry and the sweep the record is still present in the store. -/
structure OptOutRecord where
  phone : String
  source : OptOutSource
  optedOutAt : Nat
  expiresAt : Nat
  deriving DecidableEq, Repr

/-- isOptedOut static of the OptOut model: a record counts only while
expiresAt > now.  This active-record check is defined on the model but is not
what the dial pipeline consults. -/
def optOutIsOptedOut (now : Nat) (phone : String) (store : List OptOutRecord) : Bool :=
  store.any (fun r => r.phone == phone && decide (now < r.expiresAt))

/-- isOptedOut helper of the queue service: a bare existence query on the
phone, with no condition on expiresAt (broadcastQueueService.js). -/
def _isOptedOut (phone : String) (store : List OptOutRecord) : Bool :=
  store.any (fun r => r.phone == phone)

/-- checkDND of the queue service: the DND provider is not integrated and
the function returns the constant allowed. -/
def _checkDND (_phoneNumber : String) : DndStatus :=
  DndStatus.allowed

/-- Outcome of the per-call dial pipeline. -/
inductive DialOutcome
  | dndBlocked
  | optedOut
  | dialed (sid : String)
  | dialFailed
  deriving DecidableEq, Repr

/-- initiateCall (broadcastQueueService.js): the per-call dial pipeline.
After the optimistic calling event (pure emit, not state), the DND check runs
when the campaign config asks for it, then the opt-out existence check, then
the provider dial; a dial exception routes through markFailed with
retry true.  The provider interaction is abstracted as its result: ok sid or
an error.  Socket emissions and the campaign stat increments are I/O outside
the call state and are not part of the returned state. -/
def _initiateCall (now : Nat) (b : Broadcast) (c : BroadcastCall)
    (optOuts : List OptOutRecord) (dialResult : Except TwilioError String) :
    BroadcastCall × DialOutcome :=
  if b.config.compliance.dndRespect ∧ _checkDND c.phone = DndStatus.blocked then
    ({ c with dndStatus := DndStatus.blocked, status := CallStatus.failed },
     DialOutcome.dndBlocked)
  else if _isOptedOut c.phone optOuts then
    (markOptedOut now c, DialOutcome.optedOut)
  else
    match dialResult with
    | Except.ok sid => (markCalling now sid c, DialOutcome.dialed sid)
    | Except.error e =>
        (markFailed now (some b.config.retryDelay) e.code e.message true c,
         DialOutcome.dialFailed)

/-- updateStatus instance method of the Broadcast model: sets the new status,
records startedAt on the first transition to in_progress, and completedAt on
completed or cancelled. -/
def updateStatus (now : Nat) (newStatus : BroadcastStatus) (b : Broadcast) : Broadcast :=
  let b1 := { b with status := newStatus }
  let b2 :=
    if newStatus = BroadcastStatus.in_progress ∧ b1.startedAt = none then
      { b1 with startedAt := some now }
    else b1
  if newStatus = BroadcastStatus.completed ∨ newStatus = BroadcastStatus.cancelled then
    { b2 with completedAt := some now }
  else b2

/-- countDocuments over one status for a campaign. -/
def countStatus (broadcastId : Nat) (s : CallStatus) (store : List BroadcastCall) : Nat :=
  (store.filter (fun c => c.broadcast == broadcastId && c.status == s)).length

/-- Active-call count of the dispatch tick: statuses calling, ringing,
in_progress. -/
def countActive (broadcastId : Nat) (store : List BroadcastCall) : Nat :=
  (store.filter (fun c => c.broadcast == broadcastId &&
    (c.status == CallStatus.calling || c.status == CallStatus.ringing ||
     c.status == CallStatus.in_progress))).length

/-- Pending-call count of the dispatch tick: statuses queued, calling,
ringing, in_progress. -/
def countPending (broadcastId : Nat) (store : List BroadcastCall) : Nat :=
  (store.filter (fun c => c.broadcast == broadcastId &&
    (c.status == CallStatus.queued || c.status == CallStatus.calling ||
     c.status == CallStatus.ringing || c.status == CallStatus.in_progress))).length

/-- Result of one dispatch tick: the campaign after the tick, whether the
ticker was stopped (stopBroadcast), and the selected batch, each element of
which the source then runs through the dial pipeline. -/
structure TickResult where
  broadcast : Broadcast
  stopped : Bool
  toDial : List BroadcastCall
  deriving DecidableEq, Repr

/-- processBroadcastQueue (broadcastQueueService.js): one tick of the
dispatch engine.  A missing campaign is out of scope (the campaign is given);
completed or cancelled stops the ticker; queued is promoted to in_progress;
the concurrency gate compares active calls against maxConcurrent (JS
numeric-or default 50, subtraction on integers); an empty batch completes
the campaign exactly when no pending call remains. -/
def _processBroadcastQueue (now : Nat) (b : Broadcast) (store : List BroadcastCall) :
    TickResult :=
  if b.status = BroadcastStatus.completed ∨ b.status = BroadcastStatus.cancelled then
    { broadcast := b, stopped := true, toDial := [] }
  else
    let b1 := if b.status = BroadcastStatus.queued then
                updateStatus now BroadcastStatus.in_progress b
              else b
    let activeCalls := countActive b1.id store
    let maxConcurrent := jsOr b1.config.maxConcurrent 50
    if (maxConcurrent : Int) - (activeCalls : Int) ≤ 0 then
      { broadcast := b1, stopped := false, toDial := [] }
    else
      let callsToMake := _getNextCalls now b1.id (maxConcurrent - activeCalls) store
      if callsToMake.isEmpty then
        if countPending b1.id store = 0 then
          { broadcast := updateStatus now BroadcastStatus.completed b1,
            stopped := true, toDial := [] }
        else
          { broadcast := b1, stopped := false, toDial := [] }
      else
        { broadcast := b1, stopped := false, toDial := callsToMake }

/-- Twilio call statuses handled by the status webhook; the statusMap of the
handler maps exactly these eight values, any other string falls through the
JS or-fallback and would be rejected by the schema enum on save. -/
inductive ProviderStatus
  | initiated
  | ringing
  | in_progress
  | completed
  | busy
  | no_answer
  | failed
  | canceled
  deriving DecidableEq, Repr

/-- statusMap of handleCallStatus: provider status to domain status. -/
def statusMap : ProviderStatus → CallStatus
  | ProviderStatus.initiated => CallStatus.calling
  | ProviderStatus.ringing => CallStatus.ringing
  | ProviderStatus.in_progress => CallStatus.answered
  | ProviderStatus.completed => CallStatus.completed
  | ProviderStatus.busy => CallStatus.failed
  | ProviderStatus.no_answer => CallStatus.failed
  | ProviderStatus.failed => CallStatus.failed
  | ProviderStatus.canceled => CallStatus.cancelled

/-- Form body of the status webhook.  CallDuration is the parsed integer of
the form field when present. -/
structure StatusWebhookBody where
  callSidField : String
  callStatusField : ProviderStatus
  callDurationField : Option Nat
  answeredByField : Option String
  errorCodeField : Option String
  errorMessageField : Option String
  deriving DecidableEq, Repr

/-- Object-spread update storing AnsweredBy into call.metadata. -/
def setAnsweredBy (v : String) (m : Option CallMetadata) : CallMetadata :=
  match m with
  | some md => { md with answeredBy := some v }
  | none => { answeredBy := some v, errorCode := none, errorMessage := none }

/-- Object-spread update storing the error fields into call.metadata. -/
def setErrorMeta (ec em : Option String) (m : Option CallMetadata) : CallMetadata :=
  match m with
  | some md => { md with errorCode := ec, errorMessage := em }
  | none => { answeredBy := none, errorCode := ec, errorMessage := em }

/-- Field updates handleCallStatus applies to the resolved call: new status
via statusMap (unconditionally, whatever the stored status), duration and
endTime on completed (parseInt with JS or-0 fallback), answeredBy and error
fields into metadata when present. -/
def applyStatusUpdate (now : Nat) (body : StatusWebhookBody) (c : BroadcastCall) :
    BroadcastCall :=
  let c1 := { c with status := statusMap body.callStatusField }
  let c2 :=
    if body.callStatusField = ProviderStatus.completed then
      { c1 with duration := some (jsOrNum body.callDurationField 0),
                endTime := some now }
    else c1
  let c3 :=
    match body.answeredByField with
    | some a => { c2 with metadata := some (setAnsweredBy a c2.metadata) }
    | none => c2
  match body.errorCodeField, body.errorMessageField with
  | none, none => c3
  | ec, em => { c3 with metadata := some (setErrorMeta ec em c3.metadata) }

/-- Persisting a modified call document: the save replaces the document with
the same id in the collection; nothing is inserted. -/
def updateStore (c : BroadcastCall) (store : List BroadcastCall) : List BroadcastCall :=
  store.map (fun x => if x.id == c.id then c else x)

/-- HTTP outcome of the status webhook relevant to the claims. -/
inductive WebhookResponse
  | ok
  | notFound
  deriving DecidableEq, Repr

/-- handleCallStatus (Twilio webhook controller): resolve the call first by
callSid, then — race-condition fallback — by the internal call id from the
URL, backfilling a missing callSid; unknown call answers 404; the resolved
call is updated in place and saved, no document is created. -/
def handleCallStatus (now : Nat) (callId : Option Nat) (body : StatusWebhookBody)
    (store : List BroadcastCall) : WebhookResponse × List BroadcastCall :=
  match store.find? (fun c => c.callSid == some body.callSidField) with
  | some call =>
      (WebhookResponse.ok, updateStore (applyStatusUpdate now body call) store)
  | none =>
      match callId with
      | some cid =>
          match store.find? (fun c => c.id == cid) with
          | some call =>
              let call1 := if call.callSid = none then
                             { call with callSid := some body.callSidField }
                           else call
              (WebhookResponse.ok, updateStore (applyStatusUpdate now body call1) store)
          | none => (WebhookResponse.notFound, store)
      | none => (WebhookResponse.notFound, store)

/-- updateBroadcastStats (Twilio webhook controller): recomputes the stats
subdocument from a per-status aggregation, keeping total.  The object
literal in the source lists only queued, calling, answered, completed and
failed, so assigning it to the stats subdocument resets opted_out to its
schema default 0, and calls in any other status are counted nowhere. -/
def updateBroadcastStats (b : Broadcast) (store : List BroadcastCall) : Broadcast :=
  { b with stats :=
    { total := b.stats.total,
      queued := countStatus b.id CallStatus.queued store,
      calling := countStatus b.id CallStatus.calling store,
      answered := countStatus b.id CallStatus.answered store,
      completed := countStatus b.id CallStatus.completed store,
      failed := countStatus b.id CallStatus.failed store,
      opted_out := 0 } }

/-- getBroadcastStatus (broadcastService.js): the same aggregation-based
recompute, this one including the opted_out bucket; statuses outside the six
listed buckets are still counted nowhere. -/
def getBroadcastStatusStats (b : Broadcast) (store : List BroadcastCall) : Broadcast :=
  { b with stats :=
    { total := b.stats.total,
      queued := countStatus b.id CallStatus.queued store,
      calling := countStatus b.id CallStatus.calling store,
      answered := countStatus b.id CallStatus.answered store,
      completed := countStatus b.id CallStatus.completed store,
      failed := countStatus b.id CallStatus.failed store,
      opted_out := countStatus b.id CallStatus.opted_out store } }

/-- cancelBroadcast (broadcastService.js): stops the ticker (registry side
effect), bulk-updates the campaign's queued calls to cancelled, and calls
updateStatus with cancelled unconditionally — the current campaign status is
never inspected. -/
def cancelBroadcast (now : Nat) (b : Broadcast) (store : List BroadcastCall) :
    Broadcast × List BroadcastCall :=
  let store1 := store.map (fun c =>
    if c.broadcast == b.id && c.status == CallStatus.queued then
      { c with status := CallStatus.cancelled }
    else c)
  (updateStatus now BroadcastStatus.cancelled b, store1)

/-- Request payload fields of createBroadcast that feed the config
subdocument; absent fields are undefined. -/
structure CreateBroadcastData where
  maxConcurrent : Option Nat
  maxRetries : Option Nat
  retryDelay : Option Nat
  compliance : Option ComplianceConfig
  deriving DecidableEq, Repr

/-- Mongoose schema defaults for the compliance subdocument, filled in when
the request passes an empty object. -/
def defaultCompliance : ComplianceConfig :=
  { disclaimerText := "This is an automated call from",
    optOutEnabled := true,
    dndRespect := true }

/-- Config subdocument built by createBroadcast (broadcastService.js): each
numeric field goes through the JS or-fallback, with retryDelay falling back
to 30000 — not the 300000 schema default. -/
def createBroadcastConfig (data : CreateBroadcastData) : BroadcastConfig :=
  { maxConcurrent := jsOrNum data.maxConcurrent 50,
    maxRetries := jsOrNum data.maxRetries 2,
    retryDelay := jsOrNum data.retryDelay 30000,
    compliance := data.compliance.getD defaultCompliance }

/-- Opening curly brace character, written by code point to keep braces out
of literals. -/
def lbrace : Char := Char.ofNat 123

/-- Closing curly brace character. -/
def rbrace : Char := Char.ofNat 125

/-- Scanner equivalent to repeatedly executing the validator's global regex
(double brace, one or more non-closing-brace characters as the capture,
double closing brace) over the template: on a match the trimmed capture is
collected and scanning resumes after the match; otherwise the start position
advances by one character.  Fuel is the remaining length, enough because
every step consumes at least one character. -/
def templateVarsAux : Nat → List Char → List String
  | 0, _ => []
  | _, [] => []
  | Nat.succ fuel, c1 :: cs =>
    match cs with
    | [] => []
    | c2 :: rest =>
      if c1 = lbrace ∧ c2 = lbrace then
        let run := rest.takeWhile (fun ch => ch ≠ rbrace)
        if run.isEmpty then
          templateVarsAux fuel cs
        else
          match rest.drop run.length with
          | d1 :: d2 :: after =>
            if d1 = rbrace ∧ d2 = rbrace then
              (String.mk run).trim :: templateVarsAux fuel after
            else
              templateVarsAux fuel cs
          | _ => templateVarsAux fuel cs
      else
        templateVarsAux fuel cs

/-- Result object of validateTemplate; vars is the field the source calls
variables (a reserved word here). -/
structure TemplateValidation where
  valid : Bool
  vars : List String
  deriving DecidableEq, Repr

/-- validateTemplate (utils/messagePersonalizer.js): collects the variable
names found in the template and returns valid as the literal true — there is
no failure branch. -/
def validateTemplate (template : String) : TemplateValidation :=
  { valid := true,
    vars := templateVarsAux template.data.length template.data }

/-- Contact entry of the request body. -/
structure Contact where
  phone : String
  name : Option String
  deriving DecidableEq, Repr

/-- Validation outcome of the startBroadcast controller before the campaign
is created. -/
inductive StartValidation
  | invalidTemplate
  | noContacts
  | tooManyContacts
  | created
  deriving DecidableEq, Repr

/-- Validation prefix of startBroadcast (broadcastController.js): template
validity gate (400 invalid message template), then the missing-or-empty
contacts gate, then the 10000-contact cap; otherwise creation proceeds with
a 201. -/
def startBroadcastValidation (messageTemplate : String)
    (contacts : Option (List Contact)) : StartValidation :=
  if (validateTemplate messageTemplate).valid = false then
    StartValidation.invalidTemplate
  else
    match contacts with
    | none => StartValidation.noContacts
    | some cs =>
        if cs.length = 0 then StartValidation.noContacts
        else if 10000 < cs.length then StartValidation.tooManyContacts
        else StartValidation.created

/-- One failing dial attempt as the engine produces it: markCalling from the
dispatch pipeline (incrementing attempts) followed by the catch-path
markFailed with retry true. -/
def failingAttempt (now : Nat) (sid : String) (retryDelay : Option Nat)
    (errorCode : Nat) (errorMsg : String) (c : BroadcastCall) : BroadcastCall :=
  markFailed now retryDelay errorCode errorMsg true (markCalling now sid c)

/-- Concrete fresh call fixture: first contact of campaign 7, never dialed. -/
def freshCall : BroadcastCall :=
  { id := 1, broadcast := 7, phone := "+15551230001", callSid := none,
    status := CallStatus.queued, attempts := 0, retryAfter := none,
    duration := none, startTime := none, endTime := none, twilioError := none,
    dndStatus := DndStatus.unchecked, optedOut := false, metadata := none }

/-- Concrete compliance fixture matching the schema defaults. -/
def fixtureCompliance : ComplianceConfig := defaultCompliance

/-- Concrete config fixture: the values createBroadcast assigns when the
request carries none of the optional fields. -/
def fixtureConfig : BroadcastConfig :=
  { maxConcurrent := 50, maxRetries := 2, retryDelay := 30000,
    compliance := fixtureCompliance }

/-- Concrete stats fixture of a one-contact campaign at creation. -/
def fixtureStats : BroadcastStats :=
  { total := 1, queued := 0, calling := 0, answered := 0, completed := 0,
    failed := 0, opted_out := 0 }

/-- Concrete running campaign fixture with id 7. -/
def fixtureBroadcast : Broadcast :=
  { id := 7, status := BroadcastStatus.in_progress, stats := fixtureStats,
    config := fixtureConfig, startedAt := some 1, completedAt := none }

/-- Call fixture that has exhausted the hardcoded retry budget: two attempts
recorded, currently calling; under the default maxRetries 2 the claimed
policy would still grant it a third attempt. -/
def exhaustedCall : BroadcastCall :=
  { id := 2, broadcast := 7, phone := "+15551230002", callSid := some "CA2",
    status := CallStatus.calling, attempts := 2, retryAfter := none,
    duration := none, startTime := some 600, endTime := none,
    twilioError := none, dndStatus := DndStatus.unchecked, optedOut := false,
    metadata := none }

/-- Call fixture already completed by the webhook. -/
def completedCall : BroadcastCall :=
  { id := 3, broadcast := 7, phone := "+15551230003", callSid := some "CA3",
    status := CallStatus.completed, attempts := 1, retryAfter := none,
    duration := some 12, startTime := some 600, endTime := some 700,
    twilioError := none, dndStatus := DndStatus.unchecked, optedOut := false,
    metadata := none }

/-- Call fixture in status opted_out. -/
def optedOutCall : BroadcastCall :=
  { id := 4, broadcast := 7, phone := "+15551230004", callSid := none,
    status := CallStatus.opted_out, attempts := 0, retryAfter := none,
    duration := none, startTime := none, endTime := some 800,
    twilioError := none, dndStatus := DndStatus.unchecked, optedOut := true,
    metadata := none }

/-- Queued call fixture with a retryAfter but zero recorded attempts, the
state markFailed leaves behind when the dial threw before markCalling ran. -/
def retryZeroCall : BroadcastCall :=
  { id := 5, broadcast := 7, phone := "+15551230005", callSid := none,
    status := CallStatus.queued, attempts := 0, retryAfter := some 5,
    duration := none, startTime := none, endTime := some 4,
    twilioError := some { code := 500, message := "err" },
    dndStatus := DndStatus.unchecked, optedOut := false, metadata := none }

/-- Queued retry fixture with three recorded attempts, eligible under a
configured maxRetries of 5 per the claimed query but outside the hardcoded
threshold 2. -/
def thriceTriedCall : BroadcastCall :=
  { id := 6, broadcast := 7, phone := "+15551230006", callSid := some "CA6",
    status := CallStatus.queued, attempts := 3, retryAfter := some 5,
    duration := none, startTime := some 3, endTime := some 4,
    twilioError := some { code := 486, message := "busy" },
    dndStatus := DndStatus.unchecked, optedOut := false, metadata := none }

/-- Opt-out record fixture whose expiry has passed. -/
def expiredOptOut : OptOutRecord :=
  { phone := "+15551230001", source := OptOutSource.manual, optedOutAt := 0,
    expiresAt := 5 }

/-- Campaign fixture that has already completed. -/
def completedBroadcast : Broadcast :=
  { id := 8, status := BroadcastStatus.completed,
    stats := { total := 1, queued := 0, calling := 0, answered := 0,
               completed := 1, failed := 0, opted_out := 0 },
    config := fixtureConfig, startedAt := some 1, completedAt := some 900 }

/-- Webhook body fixture reporting a completed Twilio call. -/
def completedBody : StatusWebhookBody :=
  { callSidField := "CA3", callStatusField := ProviderStatus.completed,
    callDurationField := some 12, answeredByField := none,
    errorCodeField := none, errorMessageField := none }

/-- Creation payload fixture carrying none of the optional config fields. -/
def emptyCreateData : CreateBroadcastData :=
  { maxConcurrent := none, maxRetries := none, retryDelay := none,
    compliance := none }

/-- Campaign fixture configured with maxRetries 5. -/
def retryFiveBroadcast : Broadcast :=
  { fixtureBroadcast with config := { fixtureConfig with maxRetries := 5 } }

/-- Sum of the six per-status buckets of a stats subdocument, the quantity
the at-rest invariant compares against total. -/
def statSum (s : BroadcastStats) : Nat :=
  s.queued + s.calling + s.answered + s.completed + s.failed + s.opted_out

/-- Membership in one of the five statuses the webhook stats recompute
actually counts. -/
def inFiveBuckets (broadcastId : Nat) (c : BroadcastCall) : Bool :=
  c.broadcast == broadcastId &&
    (c.status == CallStatus.queued || c.status == CallStatus.calling ||
     c.status == CallStatus.answered || c.status == CallStatus.completed ||
     c.status == CallStatus.failed)

/-- C10: validateTemplate returns valid = true for every input template, so
the startBroadcast controller can never answer 400 invalid-message-template,
whatever the template's content. -/
theorem C10_validateTemplate_always_valid (t : String)
    (contacts : Option (List Contact)) :
    (validateTemplate t).valid = true ∧
      startBroadcastValidation t contacts ≠ StartValidation.invalidTemplate := by
  refine ⟨rfl, ?_⟩
  unfold startBroadcastValidation
  simp only [validateTemplate]
  cases contacts with
  | none => simp
  | some cs =>
      by_cases h0 : cs.length = 0
      · simp [h0]
      · by_cases h1 : 10000 < cs.length <;> simp [h0, h1]

/-- C2 (amended): the persistence layer performs no per-call compare-and-set
on status: markCalling unconditionally overwrites whatever status the call
holds — terminal or not — with calling, stores the SID and increments
attempts, so a dispatch-originated markCalling that lands after the webhook
recorded completed regresses the call away from completed. -/
theorem C2_markCalling_no_terminal_guard (now : Nat) (sid : String)
    (c : BroadcastCall) :
    (markCalling now sid c).status = CallStatus.calling ∧
    (markCalling now sid c).callSid = some sid ∧
    (markCalling now sid c).attempts = c.attempts + 1 :=
  ⟨rfl, rfl, rfl⟩

/-- C2 counterexample: a call already completed by the webhook is moved back
to calling by a late markCalling, contradicting the claim that no status
update is accepted on a terminal call. -/
theorem C2_counterexample :
    completedCall.status = CallStatus.completed ∧
    (markCalling 2000 "CA9" completedCall).status = CallStatus.calling ∧
    (markCalling 2000 "CA9" completedCall).status ≠ CallStatus.completed :=
  ⟨rfl, rfl, by decide⟩

/-- C1 (amended): markFailed re-queues a retryable failure exactly when
attempts < 2, a threshold hardcoded in the model and independent of
config.maxRetries, with retryAfter = now + (configured retryDelay, JS-or
300000); consequently a call whose dials always fail (each dial running
markCalling then markFailed with retry) is terminally failed after 2 total
attempts, not maxRetries + 1. -/
theorem C1_markFailed_hardcoded_retry (now delay errorCode : Nat)
    (errorMsg sid1 sid2 : String) (c : BroadcastCall) (h0 : c.attempts = 0) :
    (failingAttempt now sid1 (some delay) errorCode errorMsg c).status
        = CallStatus.queued ∧
    (failingAttempt now sid1 (some delay) errorCode errorMsg c).attempts = 1 ∧
    (failingAttempt now sid1 (some delay) errorCode errorMsg c).retryAfter
        = some (now + jsOrNum (some delay) 300000) ∧
    (failingAttempt now sid2 (some delay) errorCode errorMsg
        (failingAttempt now sid1 (some delay) errorCode errorMsg c)).status
        = CallStatus.failed ∧
    (failingAttempt now sid2 (some delay) errorCode errorMsg
        (failingAttempt now sid1 (some delay) errorCode errorMsg c)).attempts = 2 ∧
    (∀ d c2, 2 ≤ c2.attempts →
       (markFailed now d errorCode errorMsg true c2).status = CallStatus.failed) := by
  refine ⟨?_, ?_, ?_, ?_, ?_, ?_⟩
  · simp [failingAttempt, markFailed, markCalling, h0]
  · simp [failingAttempt, markFailed, markCalling, h0]
  · simp [failingAttempt, markFailed, markCalling, h0]
  · simp [failingAttempt, markFailed, markCalling, h0]
  · simp [failingAttempt, markFailed, markCalling, h0]
  · intro d c2 h2
    simp only [markFailed]
    rw [if_neg]
    omega

/-- Witness for C1: a fresh call fails twice and lands terminally failed. -/
theorem C1_markFailed_hardcoded_retry_witness :
    (failingAttempt 1000 "CA1" (some 30000) 21610 "blocked" freshCall).status
        = CallStatus.queued ∧
    (failingAttempt 1000 "CA2" (some 30000) 21610 "blocked"
        (failingAttempt 1000 "CA1" (some 30000) 21610 "blocked" freshCall)).status
        = CallStatus.failed :=
  ⟨(C1_markFailed_hardcoded_retry 1000 30000 21610 "blocked" "CA1" "CA2"
      freshCall rfl).1,
   (C1_markFailed_hardcoded_retry 1000 30000 21610 "blocked" "CA1" "CA2"
      freshCall rfl).2.2.2.1⟩

/-- C1 counterexample: under the default maxRetries of 2 the claimed policy
re-queues while attempts < 3, but a call with 2 recorded attempts and a
retryable failure is set terminally failed with no retryAfter. -/
theorem C1_counterexample :
    fixtureBroadcast.config.maxRetries = 2 ∧
    exhaustedCall.attempts < fixtureBroadcast.config.maxRetries + 1 ∧
    (markFailed 1000 (some fixtureBroadcast.config.retryDelay) 21610 "blocked"
        true exhaustedCall).status = CallStatus.failed ∧
    (markFailed 1000 (some fixtureBroadcast.config.retryDelay) 21610 "blocked"
        true exhaustedCall).retryAfter = none := by
  refine ⟨rfl, by decide, by decide, by decide⟩

/-- C9: a campaign created without an explicit retryDelay gets the
service-level fallback 30000 ms, not the 300000 ms schema default, and a
retryable failure of one of its calls is re-queued with
retryAfter = now + 30000. -/
theorem C9_createBroadcast_retryDelay_30000 (data : CreateBroadcastData)
    (now errorCode : Nat) (errorMsg : String) (c : BroadcastCall)
    (hd : data.retryDelay = none) (hc : c.attempts < 2) :
    (createBroadcastConfig data).retryDelay = 30000 ∧
    (markFailed now (some (createBroadcastConfig data).retryDelay) errorCode
        errorMsg true c).status = CallStatus.queued ∧
    (markFailed now (some (createBroadcastConfig data).retryDelay) errorCode
        errorMsg true c).retryAfter = some (now + 30000) := by
  have h1 : (createBroadcastConfig data).retryDelay = 30000 := by
    simp [createBroadcastConfig, jsOrNum, hd]
  refine ⟨h1, ?_, ?_⟩ <;> simp [markFailed, h1, jsOrNum, hc]

/-- Witness for C9: the empty creation payload and a fresh call. -/
theorem C9_createBroadcast_retryDelay_30000_witness :
    (createBroadcastConfig emptyCreateData).retryDelay = 30000 ∧
    (markFailed 500 (some (createBroadcastConfig emptyCreateData).retryDelay)
        500 "err" true freshCall).retryAfter = some (500 + 30000) :=
  ⟨(C9_createBroadcast_retryDelay_30000 emptyCreateData 500 500 "err" freshCall
      rfl (by decide)).1,
   (C9_createBroadcast_retryDelay_30000 emptyCreateData 500 500 "err" freshCall
      rfl (by decide)).2.2⟩

/-- Existence query of the queue service characterized: any record with the
phone counts, whatever its expiresAt. -/
theorem isOptedOut_exists (phone : String) (store : List OptOutRecord) :
    _isOptedOut phone store = true ↔ ∃ r ∈ store, r.phone = phone := by
  simp [_isOptedOut, List.any_eq_true]

/-- Characterization of the MongoDB retryAfter comparison. -/
theorem retryAfterLE_iff (oa : Option Nat) (now : Nat) :
    retryAfterLE oa now = true ↔ ∃ t, oa = some t ∧ t ≤ now := by
  cases oa <;> simp [retryAfterLE]

/-- C5 (amended): the dial pipeline marks a call opted_out (and never dials
it) iff the opt-out store holds any record for its phone — active or
expired: the pipeline's existence query carries no expiresAt condition, and
the model's expiry-checking isOptedOut static is not what it consults; only
the lagging TTL sweep removes expired records from view. -/
theorem C5_dial_optout_ignores_expiry (now : Nat) (b : Broadcast)
    (c : BroadcastCall) (optOuts : List OptOutRecord)
    (dialResult : Except TwilioError String) :
    ((_initiateCall now b c optOuts dialResult).2 = DialOutcome.optedOut ↔
       _isOptedOut c.phone optOuts = true) ∧
    (_isOptedOut c.phone optOuts = true ↔ ∃ r ∈ optOuts, r.phone = c.phone) ∧
    ((_initiateCall now b c optOuts dialResult).2 = DialOutcome.optedOut →
       (_initiateCall now b c optOuts dialResult).1.status = CallStatus.opted_out) ∧
    ((_initiateCall now b c optOuts dialResult).2 ≠ DialOutcome.dndBlocked) := by
  have hdnd : ¬ (b.config.compliance.dndRespect ∧ _checkDND c.phone = DndStatus.blocked) := by
    simp [_checkDND]
  by_cases h : _isOptedOut c.phone optOuts
  · refine ⟨by simp [_initiateCall, hdnd, h], isOptedOut_exists c.phone optOuts,
      fun _ => by simp [_initiateCall, hdnd, h, markOptedOut],
      by simp [_initiateCall, hdnd, h]⟩
  · have h1 : _isOptedOut c.phone optOuts = false := by
      simpa using h
    refine ⟨?_, isOptedOut_exists c.phone optOuts, ?_, ?_⟩ <;>
      cases dialResult <;>
      simp [_initiateCall, hdnd, h1, markCalling, markFailed]

/-- C5 counterexample: at time 10 the only record for the phone expired at 5,
so the model's active-record check denies it, yet the pipeline still marks
the call opted_out instead of proceeding to dial. -/
theorem C5_counterexample :
    expiredOptOut.expiresAt ≤ 10 ∧
    expiredOptOut.phone = freshCall.phone ∧
    optOutIsOptedOut 10 freshCall.phone [expiredOptOut] = false ∧
    (_initiateCall 10 fixtureBroadcast freshCall [expiredOptOut]
        (Except.ok "CA1")).2 = DialOutcome.optedOut ∧
    (_initiateCall 10 fixtureBroadcast freshCall [expiredOptOut]
        (Except.ok "CA1")).1.status = CallStatus.opted_out := by
  decide

/-- C4 (amended): the retryable query keeps the store order (it has no sort
clause) and returns, capped at the hardcoded 50, exactly the campaign's
calls with status queued, attempts < 2 — a hardcoded bound with no
attempts > 0 floor and no use of config.maxRetries — and a present
retryAfter ≤ now; the dispatch batch builder appends retryable calls only up
to the fresh-call deficit, so the batch never exceeds the slot limit. -/
theorem C4_getRetryableCalls_spec (now broadcastId : Nat)
    (store : List BroadcastCall)
    (hsmall : (store.filter (matchesRetryable now broadcastId)).length ≤ 50) :
    (∀ c, c ∈ getRetryableCalls now broadcastId store ↔
       c ∈ store ∧ c.broadcast = broadcastId ∧ c.status = CallStatus.queued ∧
       c.attempts < 2 ∧ ∃ t, c.retryAfter = some t ∧ t ≤ now) ∧
    (∀ limit, (_getNextCalls now broadcastId limit store).length ≤ limit) := by
  constructor
  · intro c
    unfold getRetryableCalls
    rw [List.take_of_length_le hsmall, List.mem_filter]
    simp [matchesRetryable, retryAfterLE_iff, and_assoc]
  · intro limit
    unfold _getNextCalls
    by_cases hle :
        limit ≤ ((store.filter (matchesFresh broadcastId)).take limit).length
    · rw [if_pos hle]
      exact List.length_take_le limit _
    · rw [if_neg hle]
      rw [List.length_append]
      have h1 : ((store.filter (matchesFresh broadcastId)).take limit).length ≤ limit :=
        List.length_take_le limit _
      have h2 := List.length_take_le
        (limit - ((store.filter (matchesFresh broadcastId)).take limit).length)
        (getRetryableCalls now broadcastId store)
      omega

/-- Witness for C4: a one-call store and a batch of three slots. -/
theorem C4_getRetryableCalls_spec_witness :
    (retryZeroCall ∈ getRetryableCalls 10 7 [retryZeroCall] ↔
       retryZeroCall ∈ [retryZeroCall] ∧ retryZeroCall.broadcast = 7 ∧
       retryZeroCall.status = CallStatus.queued ∧ retryZeroCall.attempts < 2 ∧
       ∃ t, retryZeroCall.retryAfter = some t ∧ t ≤ 10) ∧
    (_getNextCalls 10 7 3 [retryZeroCall]).length ≤ 3 :=
  ⟨(C4_getRetryableCalls_spec 10 7 [retryZeroCall] (by decide)).1 retryZeroCall,
   (C4_getRetryableCalls_spec 10 7 [retryZeroCall] (by decide)).2 3⟩

/-- C4 counterexample: the query returns a queued call whose attempts count
is 0 (the claim requires attempts > 0), and under a configured maxRetries of
5 it drops an eligible thrice-tried call (the claim requires only
attempts < maxRetries). -/
theorem C4_counterexample :
    retryZeroCall.attempts = 0 ∧
    getRetryableCalls 10 7 [retryZeroCall] = [retryZeroCall] ∧
    retryFiveBroadcast.config.maxRetries = 5 ∧
    thriceTriedCall.status = CallStatus.queued ∧
    thriceTriedCall.attempts < retryFiveBroadcast.config.maxRetries ∧
    retryAfterLE thriceTriedCall.retryAfter 10 = true ∧
    getRetryableCalls 10 7 [thriceTriedCall] = [] := by
  decide

/-- Sum of the five recomputed buckets equals the count of the campaign's
calls sitting in one of those five statuses. -/
theorem countStatus_five_sum (broadcastId : Nat) (store : List BroadcastCall) :
    countStatus broadcastId CallStatus.queued store +
    countStatus broadcastId CallStatus.calling store +
    countStatus broadcastId CallStatus.answered store +
    countStatus broadcastId CallStatus.completed store +
    countStatus broadcastId CallStatus.failed store =
      (store.filter (inFiveBuckets broadcastId)).length := by
  induction store with
  | nil => simp [countStatus]
  | cons c t ih =>
    by_cases hb : c.broadcast = broadcastId
    · cases hc : c.status <;>
        simp [countStatus, inFiveBuckets, List.filter_cons, hb, hc] at ih ⊢ <;>
        omega
    · simp [countStatus, inFiveBuckets, List.filter_cons, hb] at ih ⊢
      omega

/-- C3 (amended): the webhook stats recompute keeps total, rebuilds only the
queued, calling, answered, completed and failed buckets, and resets
opted_out to the schema default 0; the six buckets therefore sum to the
number of the campaign's calls in those five statuses, and the at-rest
equality with total holds exactly when total equals that five-bucket count —
it fails whenever a call is opted_out, ringing, in_progress, busy,
no_answer or cancelled. -/
theorem C3_updateBroadcastStats_five_buckets (b : Broadcast)
    (store : List BroadcastCall) :
    (updateBroadcastStats b store).stats.opted_out = 0 ∧
    (updateBroadcastStats b store).stats.total = b.stats.total ∧
    statSum (updateBroadcastStats b store).stats =
      (store.filter (inFiveBuckets b.id)).length ∧
    (statSum (updateBroadcastStats b store).stats =
        (updateBroadcastStats b store).stats.total ↔
       b.stats.total = (store.filter (inFiveBuckets b.id)).length) := by
  have h3 : statSum (updateBroadcastStats b store).stats =
      (store.filter (inFiveBuckets b.id)).length := by
    simpa [updateBroadcastStats, statSum] using countStatus_five_sum b.id store
  refine ⟨rfl, rfl, h3, ?_⟩
  rw [h3]
  exact eq_comm

/-- C3 counterexample: a one-contact campaign whose only call is opted_out;
after the webhook recompute the six buckets sum to 0 while total is 1, so
the claimed at-rest equality fails. -/
theorem C3_counterexample :
    optedOutCall.broadcast = fixtureBroadcast.id ∧
    fixtureBroadcast.stats.total = 1 ∧
    statSum (updateBroadcastStats fixtureBroadcast [optedOutCall]).stats = 0 ∧
    (updateBroadcastStats fixtureBroadcast [optedOutCall]).stats.total = 1 ∧
    statSum (updateBroadcastStats fixtureBroadcast [optedOutCall]).stats ≠
      (updateBroadcastStats fixtureBroadcast [optedOutCall]).stats.total := by
  decide

/-- C8 (amended): cancelling a completed campaign still returns success, but
it is not a no-op on the campaign: status is overwritten from completed to
cancelled (with a fresh completedAt); the calls are untouched whenever none
of them is queued — which holds for a drained, completed campaign — and the
stats subdocument is untouched. -/
theorem C8_cancel_completed_not_noop (now : Nat) (b : Broadcast)
    (store : List BroadcastCall) (hb : b.status = BroadcastStatus.completed)
    (hq : ∀ c ∈ store, c.status ≠ CallStatus.queued) :
    (cancelBroadcast now b store).1.status = BroadcastStatus.cancelled ∧
    (cancelBroadcast now b store).1.completedAt = some now ∧
    (cancelBroadcast now b store).1.stats = b.stats ∧
    (cancelBroadcast now b store).2 = store := by
  have hmap : ∀ (l : List BroadcastCall),
      (∀ c ∈ l, c.status ≠ CallStatus.queued) →
      l.map (fun c =>
        if c.broadcast == b.id && c.status == CallStatus.queued then
          { c with status := CallStatus.cancelled }
        else c) = l := by
    intro l hl
    induction l with
    | nil => rfl
    | cons c t ih =>
        have hc : c.status ≠ CallStatus.queued := hl c (by simp)
        have ht := ih (fun x hx => hl x (by simp [hx]))
        have hcond : (c.broadcast == b.id && c.status == CallStatus.queued) = false := by
          simp [hc]
        rw [List.map_cons, ht, hcond]
        simp
  refine ⟨?_, ?_, ?_, ?_⟩
  · simp [cancelBroadcast, updateStatus]
  · simp [cancelBroadcast, updateStatus]
  · simp [cancelBroadcast, updateStatus]
  · simpa [cancelBroadcast] using hmap store hq

/-- Witness for C8: a completed one-call campaign. -/
theorem C8_cancel_completed_not_noop_witness :
    (cancelBroadcast 1000 completedBroadcast [completedCall]).1.status
      = BroadcastStatus.cancelled ∧
    (cancelBroadcast 1000 completedBroadcast [completedCall]).2
      = [completedCall] :=
  ⟨(C8_cancel_completed_not_noop 1000 completedBroadcast [completedCall] rfl
      (by decide)).1,
   (C8_cancel_completed_not_noop 1000 completedBroadcast [completedCall] rfl
      (by decide)).2.2.2⟩

/-- C8 counterexample: cancel on a completed campaign changes the campaign's
status, so it is not the claimed status-preserving no-op. -/
theorem C8_counterexample :
    completedBroadcast.status = BroadcastStatus.completed ∧
    (cancelBroadcast 1000 completedBroadcast [completedCall]).1.status
      = BroadcastStatus.cancelled ∧
    (cancelBroadcast 1000 completedBroadcast [completedCall]).1.status
      ≠ BroadcastStatus.completed := by
  decide

/-- updateStatus never touches the campaign id. -/
theorem updateStatus_id (now : Nat) (s : BroadcastStatus) (b : Broadcast) :
    (updateStatus now s b).id = b.id := by
  simp only [updateStatus]
  split <;> split <;> rfl

/-- updateStatus never touches the campaign config. -/
theorem updateStatus_config (now : Nat) (s : BroadcastStatus) (b : Broadcast) :
    (updateStatus now s b).config = b.config := by
  simp only [updateStatus]
  split <;> split <;> rfl

/-- updateStatus stores exactly the requested status. -/
theorem updateStatus_status (now : Nat) (s : BroadcastStatus) (b : Broadcast) :
    (updateStatus now s b).status = s := by
  simp only [updateStatus]
  split <;> split <;> rfl

/-- C6: once the concurrency gate is open and the selected batch is empty,
the tick transitions the campaign to completed and stops its ticker exactly
when no call of the campaign is queued, calling, ringing or in_progress;
and a tick on an already-completed campaign only stops the ticker without
touching the campaign, so the completed transition cannot repeat. -/
theorem C6_tick_completes_iff_drained (now : Nat) (b : Broadcast)
    (store : List BroadcastCall)
    (h1 : b.status ≠ BroadcastStatus.completed)
    (h2 : b.status ≠ BroadcastStatus.cancelled)
    (hslots : countActive b.id store < jsOr b.config.maxConcurrent 50)
    (hbatch : _getNextCalls now b.id
        (jsOr b.config.maxConcurrent 50 - countActive b.id store) store = []) :
    (((_processBroadcastQueue now b store).broadcast.status
        = BroadcastStatus.completed ∧
      (_processBroadcastQueue now b store).stopped = true)
     ↔ countPending b.id store = 0) ∧
    (∀ b2 : Broadcast, b2.status = BroadcastStatus.completed →
       _processBroadcastQueue now b2 store =
         { broadcast := b2, stopped := true, toDial := [] }) := by
  have hne : ¬ (b.status = BroadcastStatus.completed ∨
      b.status = BroadcastStatus.cancelled) := by
    simp [h1, h2]
  have hcond : ¬ ((jsOr b.config.maxConcurrent 50 : Int) -
      (countActive b.id store : Int) ≤ 0) := by
    omega
  refine ⟨?_, ?_⟩
  · by_cases hq : b.status = BroadcastStatus.queued <;>
    by_cases hp : countPending b.id store = 0 <;>
    simp [_processBroadcastQueue, hne, hq, hp, hcond, hbatch,
          updateStatus_id, updateStatus_config, updateStatus_status, h1, h2]
  · intro b2 hb2
    simp [_processBroadcastQueue, hb2]

/-- Witness for C6: an in-progress one-call campaign whose only call is
already completed drains on the next tick. -/
theorem C6_tick_completes_iff_drained_witness :
    (_processBroadcastQueue 2000 fixtureBroadcast [completedCall]).broadcast.status
        = BroadcastStatus.completed ∧
    (_processBroadcastQueue 2000 fixtureBroadcast [completedCall]).stopped = true :=
  ((C6_tick_completes_iff_drained 2000 fixtureBroadcast [completedCall]
      (by decide) (by decide) (by decide) (by decide)).1).mpr (by decide)

/-- C7: the status webhook resolves the call first by providerSid; when that
lookup fails it falls back to the internal call id from the URL, backfilling
a missing providerSid before applying the update; when neither lookup finds
a call it answers 404 leaving the store untouched; and in every case the
store keeps exactly its rows — no call row is ever created. -/
theorem C7_handleCallStatus_lookup (now : Nat) (callId : Option Nat)
    (body : StatusWebhookBody) (store : List BroadcastCall) :
    ((handleCallStatus now callId body store).2.length = store.length) ∧
    ((handleCallStatus now callId body store).1 = WebhookResponse.notFound ↔
       (∀ c ∈ store, c.callSid ≠ some body.callSidField) ∧
       (∀ cid, callId = some cid → ∀ c ∈ store, c.id ≠ cid)) ∧
    ((handleCallStatus now callId body store).1 = WebhookResponse.notFound →
       (handleCallStatus now callId body store).2 = store) ∧
    (∀ c, store.find? (fun x => x.callSid == some body.callSidField) = some c →
       (handleCallStatus now callId body store).1 = WebhookResponse.ok ∧
       (handleCallStatus now callId body store).2 =
         updateStore (applyStatusUpdate now body c) store) ∧
    (∀ cid c, store.find? (fun x => x.callSid == some body.callSidField) = none →
       callId = some cid → store.find? (fun x => x.id == cid) = some c →
       c.callSid = none →
       (handleCallStatus now callId body store).1 = WebhookResponse.ok ∧
       (handleCallStatus now callId body store).2 =
         updateStore (applyStatusUpdate now body
           { c with callSid := some body.callSidField }) store) := by
  cases hfs : store.find? (fun x => x.callSid == some body.callSidField) with
  | some call =>
      have hmem : call ∈ store := List.mem_of_find?_eq_some hfs
      have hsid : call.callSid = some body.callSidField := by
        have := List.find?_some hfs
        simpa using this
      refine ⟨?_, ?_, ?_, ?_, ?_⟩
      · simp [handleCallStatus, hfs, updateStore]
      · refine iff_of_false (by simp [handleCallStatus, hfs]) ?_
        rintro ⟨hall, _⟩
        exact hall call hmem hsid
      · simp [handleCallStatus, hfs]
      · intro c hc
        cases hc
        simp [handleCallStatus, hfs]
      · intro cid c h0
        cases h0
  | none =>
      have hnone : ∀ c ∈ store, c.callSid ≠ some body.callSidField := by
        intro c hc
        have := List.find?_eq_none.mp hfs c hc
        simpa using this
      cases callId with
      | none =>
          refine ⟨?_, ?_, ?_, ?_, ?_⟩
          · simp [handleCallStatus, hfs]
          · refine iff_of_true (by simp [handleCallStatus, hfs]) ?_
            exact ⟨hnone, fun cid h => by cases h⟩
          · intro _
            simp [handleCallStatus, hfs]
          · intro c hc
            cases hc
          · intro cid c _ hcid
            cases hcid
      | some cid =>
          cases hfi : store.find? (fun x => x.id == cid) with
          | some call =>
              have hmem : call ∈ store := List.mem_of_find?_eq_some hfi
              have hid : call.id = cid := by
                have := List.find?_some hfi
                simpa using this
              refine ⟨?_, ?_, ?_, ?_, ?_⟩
              · simp [handleCallStatus, hfs, hfi, updateStore]
              · refine iff_of_false (by simp [handleCallStatus, hfs, hfi]) ?_
                rintro ⟨_, h2⟩
                exact h2 cid rfl call hmem hid
              · simp [handleCallStatus, hfs, hfi]
              · intro c hc
                cases hc
              · intro cid2 c hn hcid hfi2 hnosid
                cases hcid
                rw [hfi] at hfi2
                cases hfi2
                simp [handleCallStatus, hfs, hfi, hnosid]
          | none =>
              have hnoid : ∀ c ∈ store, c.id ≠ cid := by
                intro c hc
                have := List.find?_eq_none.mp hfi c hc
                simpa using this
              refine ⟨?_, ?_, ?_, ?_, ?_⟩
              · simp [handleCallStatus, hfs, hfi]
              · refine iff_of_true (by simp [handleCallStatus, hfs, hfi]) ?_
                refine ⟨hnone, fun cid2 h => ?_⟩
                cases h
                exact hnoid
              · intro _
                simp [handleCallStatus, hfs, hfi]
              · intro c hc
                cases hc
              · intro cid2 c hn hcid hfi2
                cases hcid
                rw [hfi] at hfi2
                cases hfi2

/-- Witness for C7: a one-call store resolved by providerSid. -/
theorem C7_handleCallStatus_lookup_witness :
    (handleCallStatus 3000 (some 3) completedBody [completedCall]).2.length = 1 ∧
    (handleCallStatus 3000 (some 3) completedBody [completedCall]).1
      = WebhookResponse.ok :=
  ⟨(C7_handleCallStatus_lookup 3000 (some 3) completedBody [completedCall]).1,
   ((C7_handleCallStatus_lookup 3000 (some 3) completedBody
       [completedCall]).2.2.2.1 completedCall (by decide)).1⟩

/-- Witness for C2: a late markCalling applied to the completed fixture. -/
theorem C2_markCalling_no_terminal_guard_witness :
    (markCalling 2500 "CA7" completedCall).status = CallStatus.calling :=
  (C2_markCalling_no_terminal_guard 2500 "CA7" completedCall).1

/-- Witness for C3: the recompute on a one-fresh-call campaign. -/
theorem C3_updateBroadcastStats_five_buckets_witness :
    (updateBroadcastStats fixtureBroadcast [freshCall]).stats.opted_out = 0 ∧
    statSum (updateBroadcastStats fixtureBroadcast [freshCall]).stats =
      ([freshCall].filter (inFiveBuckets fixtureBroadcast.id)).length :=
  ⟨(C3_updateBroadcastStats_five_buckets fixtureBroadcast [freshCall]).1,
   (C3_updateBroadcastStats_five_buckets fixtureBroadcast [freshCall]).2.2.1⟩

/-- Witness for C5: the expired record still routes the pipeline to
opted_out. -/
theorem C5_dial_optout_ignores_expiry_witness :
    (_initiateCall 10 fixtureBroadcast freshCall [expiredOptOut]
        (Except.ok "CA8")).2 = DialOutcome.optedOut :=
  ((C5_dial_optout_ignores_expiry 10 fixtureBroadcast freshCall [expiredOptOut]
      (Except.ok "CA8")).1).mpr (by decide)

/-- Witness for C10: a plain template and a single contact. -/
theorem C10_validateTemplate_always_valid_witness :
    (validateTemplate "Hello").valid = true ∧
    startBroadcastValidation "Hello"
        (some [{ phone := "+15551230001", name := none }])
      ≠ StartValidation.invalidTemplate :=
  C10_validateTemplate_always_valid "Hello"
    (some [{ phone := "+15551230001", name := none }])

end VoiceBroadcast
